import Mathlib

/-!
# xi2watch: a shallow embedding of `xi2watch.c`

`xi2watch` listens for XInput2 hierarchy-change events and, for every change
record with non-zero flags, forks a child that runs the user's command with
the record exposed through environment variables, then waits for it.

The embedding follows `src/xi2watch.c` function by function:

* `setenv` / `getenv` model the process environment as the `environ` array,
  a list of `NAME=value` pairs searched front to back;
* `snprintf` models the truncation of a formatted string to a buffer;
* `run_command`, `hierarchy_changed`, `connect_events` and `main` are the
  functions of the source with the same names, written in state-passing
  style over a `World` that holds the parent's environment, the answers the
  outside world will give (`Outcome`) and the trace of observable events.
-/

namespace Xi2watch

/-! ## Constants of the X11 headers used by the source -/

/-- `XIMasterAdded` of `<X11/extensions/XI2.h>`: `(1 << 0)`. -/
def XIMasterAdded : Int := 2 ^ 0
/-- `XIMasterRemoved` of `<X11/extensions/XI2.h>`: `(1 << 1)`. -/
def XIMasterRemoved : Int := 2 ^ 1
/-- `XISlaveAdded` of `<X11/extensions/XI2.h>`: `(1 << 2)`. -/
def XISlaveAdded : Int := 2 ^ 2
/-- `XISlaveRemoved` of `<X11/extensions/XI2.h>`: `(1 << 3)`. -/
def XISlaveRemoved : Int := 2 ^ 3
/-- `XISlaveAttached` of `<X11/extensions/XI2.h>`: `(1 << 4)`. -/
def XISlaveAttached : Int := 2 ^ 4
/-- `XISlaveDetached` of `<X11/extensions/XI2.h>`: `(1 << 5)`. -/
def XISlaveDetached : Int := 2 ^ 5
/-- `XIDeviceEnabled` of `<X11/extensions/XI2.h>`: `(1 << 6)`. -/
def XIDeviceEnabled : Int := 2 ^ 6
/-- `XIDeviceDisabled` of `<X11/extensions/XI2.h>`: `(1 << 7)`. -/
def XIDeviceDisabled : Int := 2 ^ 7

/-- `XIMasterPointer` of `<X11/extensions/XI2.h>`. -/
def XIMasterPointer : Int := 1
/-- `XIMasterKeyboard` of `<X11/extensions/XI2.h>`. -/
def XIMasterKeyboard : Int := 2
/-- `XISlavePointer` of `<X11/extensions/XI2.h>`. -/
def XISlavePointer : Int := 3
/-- `XISlaveKeyboard` of `<X11/extensions/XI2.h>`. -/
def XISlaveKeyboard : Int := 4
/-- `XIFloatingSlave` of `<X11/extensions/XI2.h>`. -/
def XIFloatingSlave : Int := 5

/-- `XIAllDevices` of `<X11/extensions/XI2.h>`. -/
def XIAllDevices : Int := 0
/-- `XI_HierarchyChanged` of `<X11/extensions/XI2.h>` (the source's own
documentation shows it as `EVENT type 11 (HierarchyChanged)`). -/
def XI_HierarchyChanged : Int := 11
/-- `GenericEvent` of `<X11/X.h>`. -/
def GenericEvent : Int := 35

/-! ## Data model -/

/-- `XIHierarchyInfo`: one change record of a hierarchy event. All five
fields are C `int`s (`Bool` is `int` in Xlib). -/
structure XIHierarchyInfo where
  deviceid : Int
  attachment : Int
  use : Int
  enabled : Int
  flags : Int
  deriving DecidableEq, Repr

/-- `XIDeviceInfo`: one entry of the array returned by `XIQueryDevice`.
Only the two fields read by `run_command` are kept. -/
structure XIDeviceInfo where
  deviceid : Int
  name : String
  deriving DecidableEq, Repr

/-- The `environ` array: `NAME=value` entries in order. -/
abbrev Env := List (String × String)

/-- `getenv`: the value of the first entry called `name`. -/
def getenv : Env → String → Option String
  | [], _ => none
  | (k, v) :: rest, name => if k = name then some v else getenv rest name

/-- `setenv(name, value, overwrite)`: the first entry called `name` is
replaced when `overwrite` is non-zero and kept otherwise; when there is
none, a new entry is added at the end. -/
def setenv : Env → String → String → Int → Env
  | [], name, value, _ => [(name, value)]
  | (k, v) :: rest, name, value, overwrite =>
      if k = name then
        (if overwrite ≠ 0 then (k, value) :: rest else (k, v) :: rest)
      else (k, v) :: setenv rest name value overwrite

/-- `snprintf(buf, size, ...)`: of the formatted text `s`, at most
`size - 1` characters are stored in the buffer (the last byte holds the
terminating NUL). -/
def snprintf (size : Nat) (s : String) : String :=
  String.mk (s.data.take (size - 1))

/-- How a child process ended, as `waitpid` learns it. -/
inductive Termination where
  | exited (code : Nat)
  | signaled (sig : Nat) (core : Bool)
  deriving DecidableEq, Repr

/-- A termination the kernel can report: an exit code is one byte, a
terminating signal is a number from 1 to 127. -/
def Termination.wf : Termination → Prop
  | .exited code => code < 256
  | .signaled sig _ => 0 < sig ∧ sig < 128

instance (t : Termination) : Decidable t.wf := by
  cases t <;> unfold Termination.wf <;> infer_instance

/-- The `int` that `waitpid` stores for a termination (POSIX encoding: exit
code in bits 8 to 15, terminating signal in bits 0 to 6, core flag bit 7). -/
def wait_status : Termination → Int
  | .exited code => ((code % 256 : Nat) : Int) * 256
  | .signaled sig core => ((sig % 128 : Nat) : Int) + (if core then 128 else 0)

/-- What the outside world answers during one call of `run_command`. -/
structure Outcome where
  /-- The array returned by `XIQueryDevice` (empty when the query fails). -/
  devices : List XIDeviceInfo
  /-- The result of `fork` in the parent: `none` for `-1`, `some pid` for
  the pid of the new child. -/
  fork : Option Nat
  /-- In the child: `none` when `execvp` fails and returns, `some t` when
  the command runs and ends as `t`. -/
  command : Option Termination

/-- Observable events, of the parent and of its children, in the order in
which they happen. -/
inductive Event where
  | XISelectEvents (deviceid : Int) (mask : List Int)
  | XIQueryDevice (devices : List XIDeviceInfo)
  | XIFreeDeviceInfo (devices : List XIDeviceInfo)
  | fork (pid : Nat)
  | perror (s : String)
  | execvp (file : Option String) (argv : List String) (environ : Env)
  | child_exit (status : Int)
  | command_ended (t : Termination)
  | waitpid (pid : Nat) (status : Int)
  | fprintf_stderr (s : String)
  deriving DecidableEq, Repr

/-- The state threaded through the program. -/
structure World where
  /-- The environment of the watcher process. -/
  environ : Env
  /-- The answers to the calls of `run_command` still to come. -/
  oracle : Nat → Outcome
  /-- The events so far, oldest first. -/
  trace : List Event

/-- Append one event to the trace. -/
def World.emit (w : World) (e : Event) : World :=
  { w with trace := w.trace ++ [e] }

/-- Take the answers for the call that starts now. -/
def World.next (w : World) : Outcome × World :=
  (w.oracle 0, { w with oracle := fun n => w.oracle (n + 1) })

/-! ## The functions of the source -/

/-- The environment the child of `run_command` has built when it reaches
`execvp` (lines 287 to 317), starting from the inherited environment. -/
def child_environ (environ : Env) (info : XIHierarchyInfo)
    (devices : List XIDeviceInfo) (idbuf : String) : Env :=
  let env := setenv environ "DEVICE" idbuf 1
  -- for (i = 0; i < nb_devices; i++) if (devices[i].deviceid == info->deviceid) { ...; break; }
  let env := match devices.find? (fun d => d.deviceid == info.deviceid) with
    | some d => setenv env "DEVICE_NAME" d.name 1
    | none => env
  let env := setenv env "ENABLED" (if info.enabled ≠ 0 then "1" else "0") 1
  let ENV_FLAG := fun (env : Env) (e : String) (f : Int) =>
    setenv env ("FLAG_" ++ e) (if Int.land info.flags f ≠ 0 then "1" else "0") 1
  let env := ENV_FLAG env "MASTER_ADDED" XIMasterAdded
  let env := ENV_FLAG env "MASTER_REMOVED" XIMasterRemoved
  let env := ENV_FLAG env "SLAVE_ADDED" XISlaveAdded
  let env := ENV_FLAG env "SLAVE_REMOVED" XISlaveRemoved
  let env := ENV_FLAG env "SLAVE_ATTACHED" XISlaveAttached
  let env := ENV_FLAG env "SLAVE_DETACHED" XISlaveDetached
  let env := ENV_FLAG env "DEVICE_ENABLED" XIDeviceEnabled
  let env := ENV_FLAG env "DEVICE_DISABLED" XIDeviceDisabled
  let type :=
    if info.use = 0 then "none"
    else if info.use = XIMasterPointer then "master_pointer"
    else if info.use = XIMasterKeyboard then "master_keyboard"
    else if info.use = XISlavePointer then "slave_pointer"
    else if info.use = XISlaveKeyboard then "slave_keyboard"
    else if info.use = XIFloatingSlave then "floating_slave"
    else snprintf 32 ("unknown_" ++ toString info.use)
  setenv env "USE" type 1

/-- `run_command(cmd, info)`. The events of the child (from `fork` returning
0 to the end of the child) are placed between the parent's `fork` and the
return of its `waitpid`, which is when they happen. -/
def run_command (cmd : List String) (info : XIHierarchyInfo) (w : World) : World :=
  let (o, w) := w.next
  let devices := o.devices
  let w := w.emit (.XIQueryDevice devices)
  let idbuf := snprintf 32 (toString info.deviceid)
  match o.fork with
  | none =>
      -- child < 0
      w.emit (.perror "fork")
  | some child =>
      let w := w.emit (.fork child)
      -- child == 0: the new process
      let w := w.emit (.execvp cmd.head? cmd (child_environ w.environ info devices idbuf))
      let (w, ended) := match o.command with
        | none => ((w.emit (.perror "exec")).emit (.child_exit 1), Termination.exited 1)
        | some t => (w.emit (.command_ended t), t)
      -- the parent
      let status := wait_status ended
      let w := w.emit (.waitpid child status)
      let w := if status ≠ 0 then w.emit (.fprintf_stderr "Child failed\n") else w
      w.emit (.XIFreeDeviceInfo devices)

/-- `hierarchy_changed(ev, cmd)`: `ev` is the array `ev->info` of
`ev->num_info` records. -/
def hierarchy_changed : List XIHierarchyInfo → List String → World → World
  | [], _, w => w
  | info :: rest, cmd, w =>
      hierarchy_changed rest cmd (if info.flags ≠ 0 then run_command cmd info w else w)

/-- `connect_events()`; `calloc` tells whether the allocation of the mask
succeeds. Returns `none` when the process aborts. -/
def connect_events (calloc : Bool) (w : World) : Option World :=
  if calloc then some (w.emit (.XISelectEvents XIAllDevices [XI_HierarchyChanged]))
  else none

/-- An `XEvent` as read by `XNextEvent`, with the answer of
`XGetEventData` for it: `data = none` when it returns false, otherwise the
records of the cookie's payload. -/
structure XEvent where
  type : Int
  extension : Int
  evtype : Int
  data : Option (List XIHierarchyInfo)

/-- The body of the `while (1)` loop of `main`, run for the events `evs`
read so far. -/
def main_loop (xi_major : Int) (argv : List String) : List XEvent → World → World
  | [], w => w
  | ev :: evs, w =>
      let w :=
        if ev.type = GenericEvent ∧ ev.extension = xi_major then
          match ev.data with
          | some data =>
              if ev.evtype = XI_HierarchyChanged then hierarchy_changed data (argv.drop 1) w
              else w
          | none => w
        else w
      main_loop xi_major argv evs w

/-- What the start of `main` finds. -/
structure Startup where
  /-- `XOpenDisplay` returns a display. -/
  display : Bool
  /-- `XQueryExtension`: `none` when it returns false, else `xi_major`. -/
  xi_major : Option Int
  /-- `calloc` in `connect_events` succeeds. -/
  calloc : Bool

/-- `main(argc, argv)` with `argc = argv.length`, run for the events `evs`.
The second component is how the watcher ended: `none` while it is still in
its loop (about to call `XNextEvent` again). -/
def main (argv : List String) (s : Startup) (evs : List XEvent) (w : World) :
    World × Option Termination :=
  if argv.length < 2 then
    (w.emit (.fprintf_stderr "Usage: xi2watch command [args]\n"), some (.exited 1))
  else if ¬ s.display then
    (w.emit (.fprintf_stderr "Unable to open display\n"), some (.exited 1))
  else
    match s.xi_major with
    | none => (w.emit (.fprintf_stderr "XI2 not available\n"), some (.exited 1))
    | some xi_major =>
        match connect_events s.calloc w with
        | none => (w, some (.signaled 6 true))
        | some w => (main_loop xi_major argv evs w, none)

/-! ## Notions used to state the properties -/

/-- A C `int`: a 32-bit signed value. -/
def is_int (n : Int) : Prop := -2 ^ 31 ≤ n ∧ n < 2 ^ 31

instance (n : Int) : Decidable (is_int n) := by unfold is_int; infer_instance

/-- The events one call of `run_command` adds to the trace, in an
environment `environ` and with the answers `o`. -/
def run_command_events (environ : Env) (cmd : List String) (info : XIHierarchyInfo)
    (o : Outcome) : List Event :=
  (run_command cmd info { environ := environ, oracle := fun _ => o, trace := [] }).trace

/-- Whether an event is a call of `XIQueryDevice`. -/
def is_query : Event → Bool
  | .XIQueryDevice _ => true
  | _ => false

/-- The records of a payload that `hierarchy_changed` must act on. -/
def actionable (ev : List XIHierarchyInfo) : List XIHierarchyInfo :=
  ev.filter (fun info => decide (info.flags ≠ 0))

/-- The events `hierarchy_changed` adds to the trace for the payload `ev`,
in an environment `environ` and with the answers `oracle`. -/
def hierarchy_changed_events (environ : Env) (cmd : List String)
    (ev : List XIHierarchyInfo) (oracle : Nat → Outcome) : List Event :=
  (hierarchy_changed ev cmd { environ := environ, oracle := oracle, trace := [] }).trace

/-- The change an event makes to the number of children that exist and have
not been waited for: `fork` creates one, `waitpid` collects one. -/
def delta : Event → Int
  | .fork _ => 1
  | .waitpid _ _ => -1
  | _ => 0

/-- The number of children created and not yet waited for after the events
`t`. -/
def outstanding (t : List Event) : Int := (t.map delta).sum

/-- At every point of `t`, at most one child is outstanding. -/
def Sequential (t : List Event) : Prop :=
  ∀ p, p <+: t → 0 ≤ outstanding p ∧ outstanding p ≤ 1

/-- The event the X server delivers for a hierarchy change with the records
`data`, for which `XGetEventData` succeeds. -/
def hierarchy_event (xi_major : Int) (data : List XIHierarchyInfo) : XEvent :=
  { type := GenericEvent, extension := xi_major, evtype := XI_HierarchyChanged,
    data := some data }

/-- A world at the start of a run: no event yet, and `answers` are the
answers to the first calls of `run_command`; in every later call the device
directory is empty and `fork` fails. -/
def World.start (environ : Env) (answers : List Outcome) : World :=
  { environ := environ,
    oracle := fun n => answers.getD n { devices := [], fork := none, command := none },
    trace := [] }

/-- The record of the example in the source's documentation: device 15, a
slave keyboard, has been enabled. -/
def example_record : XIHierarchyInfo :=
  { deviceid := 15, attachment := 3, use := XISlaveKeyboard, enabled := 1,
    flags := XIDeviceEnabled }

/-- A device directory in which device 15 is present. -/
def example_directory : List XIDeviceInfo :=
  [⟨2, "Virtual core pointer"⟩, ⟨3, "Virtual core keyboard"⟩,
   ⟨15, "mini keyboard Consumer Control"⟩]

/-- A device directory from which device 15 has already gone. -/
def stale_directory : List XIDeviceInfo :=
  [⟨2, "Virtual core pointer"⟩, ⟨3, "Virtual core keyboard"⟩]

/-- A world in which the watcher's own environment already defines `DEVICE`
and `USE`, and the first call finds device 15 and runs the command. -/
def example_world : World :=
  World.start [("HOME", "/root"), ("DEVICE", "1"), ("USE", "x")]
    [⟨example_directory, some 100, some (.exited 0)⟩]

/-- Whether an event is a call of `XIFreeDeviceInfo`. -/
def is_free : Event → Bool
  | .XIFreeDeviceInfo _ => true
  | _ => false

/-- The number of device directory snapshots queried and not yet released
after the events `t`. -/
def snapshots_live (t : List Event) : Int :=
  (t.countP is_query : Int) - (t.countP is_free : Int)

/-! ## Auxiliary lemmas -/

theorem getenv_setenv (env : Env) (name value m : String) :
    getenv (setenv env name value 1) m = if name = m then some value else getenv env m := by
  induction env with
  | nil => simp [setenv, getenv]
  | cons p rest ih =>
    obtain ⟨k, v⟩ := p
    by_cases hk : k = name
    · subst hk
      by_cases hm : k = m <;> simp [setenv, getenv, hm]
    · by_cases hm : k = m
      · subst hm
        have : ¬ name = k := fun h => hk h.symm
        simp [setenv, getenv, hk, this]
      · simp [setenv, getenv, hk, hm, ih]

theorem snprintf_fits (size : Nat) (s : String) (h : s.length ≤ size - 1) :
    snprintf size s = s := by
  cases s with
  | mk l =>
    have hl : l.length ≤ size - 1 := h
    show String.mk (l.take (size - 1)) = String.mk l
    rw [List.take_of_length_le hl]

theorem land_two_pow (x : Int) (k : Nat) :
    Int.land x (2 ^ k) ≠ 0 ↔ x.testBit k = true := by
  have hpow : ((2 : Int) ^ k) = ((2 ^ k : Nat) : Int) := by push_cast; rfl
  rw [hpow]
  obtain ⟨y, hy⟩ : ∃ y : Nat, Int.land x ((2 ^ k : Nat) : Int) = (y : Int) := by
    cases x <;> exact ⟨_, rfl⟩
  have hbit : ∀ j, y.testBit j = (x.testBit j && decide (k = j)) := by
    intro j
    have h := Int.testBit_land x ((2 ^ k : Nat) : Int) j
    rw [hy] at h
    have e1 : Int.testBit (y : Int) j = y.testBit j := rfl
    have e2 : Int.testBit ((2 ^ k : Nat) : Int) j = (2 ^ k : Nat).testBit j := rfl
    rw [e1, e2, Nat.testBit_two_pow] at h
    exact h
  rw [hy]
  constructor
  · intro hne
    have hne' : y ≠ 0 := fun h0 => hne (by rw [h0]; rfl)
    obtain ⟨j, hj⟩ := Nat.ne_zero_implies_bit_true hne'
    rw [hbit j] at hj
    simp at hj
    obtain ⟨h1, h2⟩ := hj
    subst h2; exact h1
  · intro hb hy0
    have h0 : y = 0 := by exact_mod_cast hy0
    have := hbit k
    rw [h0, hb] at this
    simp at this

theorem flag_value (x : Int) (k : Nat) :
    (if Int.land x (2 ^ k) ≠ 0 then "1" else "0") = (if x.testBit k then "1" else "0") := by
  by_cases h : x.testBit k = true
  · rw [if_pos ((land_two_pow x k).2 h), if_pos h]
  · rw [if_neg (fun hn => h ((land_two_pow x k).1 hn)), if_neg h]

theorem int_toString_length (n : Int) (h : is_int n) : (toString n).length ≤ 11 := by
  obtain ⟨h1, h2⟩ := h
  cases n with
  | ofNat m =>
    have : (Nat.repr m).length ≤ 10 := Nat.repr_length m 10 (by norm_num) (by
      have : (m : Int) < 2 ^ 31 := h2
      omega)
    show (Nat.repr m).length ≤ 11
    omega
  | negSucc m =>
    have : (Nat.repr (m + 1)).length ≤ 10 := Nat.repr_length (m + 1) 10 (by norm_num) (by
      have : -2 ^ 31 ≤ Int.negSucc m := h1
      rw [Int.negSucc_eq] at this
      omega)
    show ("-" ++ Nat.repr (m + 1)).length ≤ 11
    rw [String.length_append]
    have : "-".length = 1 := by decide
    omega

theorem idbuf_complete (n : Int) (h : is_int n) : snprintf 32 (toString n) = toString n :=
  snprintf_fits 32 _ (by have := int_toString_length n h; omega)

theorem typebuf_complete (n : Int) (h : is_int n) :
    snprintf 32 ("unknown_" ++ toString n) = "unknown_" ++ toString n := by
  apply snprintf_fits
  rw [String.length_append]
  have := int_toString_length n h
  have : "unknown_".length = 8 := by decide
  omega

/-! ## The shape of what `run_command` does -/

theorem run_command_eq (cmd : List String) (info : XIHierarchyInfo) (w : World) :
    run_command cmd info w =
      { environ := w.environ, oracle := fun n => w.oracle (n + 1),
        trace := w.trace ++ run_command_events w.environ cmd info (w.oracle 0) } := by
  unfold run_command_events run_command
  simp only [World.next, World.emit]
  cases (w.oracle 0).fork with
  | none => simp
  | some pid =>
    cases (w.oracle 0).command with
    | none => simp; split <;> simp
    | some t => simp; split <;> simp

theorem run_command_events_fork_failed (environ : Env) (cmd : List String)
    (info : XIHierarchyInfo) (o : Outcome) (h : o.fork = none) :
    run_command_events environ cmd info o =
      [.XIQueryDevice o.devices, .perror "fork"] := by
  simp [run_command_events, run_command, World.next, World.emit, h]

theorem run_command_events_exec_failed (environ : Env) (cmd : List String)
    (info : XIHierarchyInfo) (o : Outcome) (pid : Nat) (h : o.fork = some pid)
    (hc : o.command = none) :
    run_command_events environ cmd info o =
      [.XIQueryDevice o.devices, .fork pid,
       .execvp cmd.head? cmd
          (child_environ environ info o.devices (snprintf 32 (toString info.deviceid))),
       .perror "exec", .child_exit 1, .waitpid pid 256,
       .fprintf_stderr "Child failed\n", .XIFreeDeviceInfo o.devices] := by
  simp [run_command_events, run_command, World.next, World.emit, h, hc, wait_status]

theorem run_command_events_ran (environ : Env) (cmd : List String)
    (info : XIHierarchyInfo) (o : Outcome) (pid : Nat) (t : Termination)
    (h : o.fork = some pid) (hc : o.command = some t) :
    run_command_events environ cmd info o =
      [.XIQueryDevice o.devices, .fork pid,
       .execvp cmd.head? cmd
          (child_environ environ info o.devices (snprintf 32 (toString info.deviceid))),
       .command_ended t, .waitpid pid (wait_status t)]
      ++ (if wait_status t ≠ 0 then [.fprintf_stderr "Child failed\n"] else [])
      ++ [.XIFreeDeviceInfo o.devices] := by
  by_cases hs : wait_status t = 0 <;>
    simp [run_command_events, run_command, World.next, World.emit, h, hc, hs]

theorem wait_status_eq_zero (t : Termination) (ht : t.wf) :
    wait_status t = 0 ↔ t = .exited 0 := by
  cases t with
  | exited code =>
    have hc : code < 256 := ht
    simp only [wait_status, Termination.exited.injEq]
    omega
  | signaled sig core =>
    obtain ⟨h1, h2⟩ : 0 < sig ∧ sig < 128 := ht
    simp only [wait_status]
    constructor
    · intro h
      cases core <;> simp at h <;> omega
    · intro h; cases h

/-! ## The loop of `hierarchy_changed` -/

theorem hierarchy_changed_append (a b : List XIHierarchyInfo) (cmd : List String)
    (w : World) :
    hierarchy_changed (a ++ b) cmd w = hierarchy_changed b cmd (hierarchy_changed a cmd w) := by
  induction a generalizing w with
  | nil => rfl
  | cons info rest ih => exact ih _

theorem hierarchy_changed_eq (ev : List XIHierarchyInfo) (cmd : List String) (w : World) :
    hierarchy_changed ev cmd w =
      { environ := w.environ, oracle := fun n => w.oracle (n + (actionable ev).length),
        trace := w.trace ++ hierarchy_changed_events w.environ cmd ev w.oracle } := by
  induction ev generalizing w with
  | nil => simp [hierarchy_changed, hierarchy_changed_events, actionable]
  | cons info rest ih =>
    by_cases h : info.flags = 0
    · have e := ih w
      simp only [hierarchy_changed, hierarchy_changed_events, actionable, h, ne_eq,
        not_true_eq_false, if_false, decide_False, List.filter_cons_of_neg,
        Bool.false_eq_true, not_false_eq_true] at e ⊢
      exact e
    · have e1 := ih (run_command cmd info w)
      have e2 := ih (run_command cmd info
        { environ := w.environ, oracle := w.oracle, trace := [] })
      simp only [hierarchy_changed, hierarchy_changed_events, actionable, h, ne_eq,
        not_false_eq_true, if_true, decide_True, List.filter_cons_of_pos,
        List.length_cons] at e1 e2 ⊢
      rw [e1, e2]
      simp only [run_command_eq, List.nil_append, List.append_assoc]
      simp only [Nat.add_assoc]

theorem hierarchy_changed_events_nil (environ : Env) (cmd : List String)
    (oracle : Nat → Outcome) : hierarchy_changed_events environ cmd [] oracle = [] := rfl

theorem hierarchy_changed_events_skip (environ : Env) (cmd : List String)
    (info : XIHierarchyInfo) (rest : List XIHierarchyInfo) (oracle : Nat → Outcome)
    (h : info.flags = 0) :
    hierarchy_changed_events environ cmd (info :: rest) oracle =
      hierarchy_changed_events environ cmd rest oracle := by
  simp [hierarchy_changed_events, hierarchy_changed, h]

theorem hierarchy_changed_events_act (environ : Env) (cmd : List String)
    (info : XIHierarchyInfo) (rest : List XIHierarchyInfo) (oracle : Nat → Outcome)
    (h : info.flags ≠ 0) :
    hierarchy_changed_events environ cmd (info :: rest) oracle =
      run_command_events environ cmd info (oracle 0) ++
        hierarchy_changed_events environ cmd rest (fun n => oracle (n + 1)) := by
  simp only [hierarchy_changed_events, hierarchy_changed, h, ne_eq, not_false_eq_true,
    if_true]
  rw [run_command_eq, hierarchy_changed_eq]
  simp [hierarchy_changed_events]

theorem hierarchy_changed_events_append (environ : Env) (cmd : List String)
    (a b : List XIHierarchyInfo) (oracle : Nat → Outcome) :
    hierarchy_changed_events environ cmd (a ++ b) oracle =
      hierarchy_changed_events environ cmd a oracle ++
        hierarchy_changed_events environ cmd b (fun n => oracle (n + (actionable a).length)) := by
  simp only [hierarchy_changed_events]
  rw [hierarchy_changed_append, hierarchy_changed_eq a]
  simp only [List.nil_append]
  rw [hierarchy_changed_eq b]
  simp [hierarchy_changed_events]

theorem run_command_events_queries (environ : Env) (cmd : List String)
    (info : XIHierarchyInfo) (o : Outcome) :
    (run_command_events environ cmd info o).countP is_query = 1 := by
  cases hf : o.fork with
  | none => rw [run_command_events_fork_failed _ _ _ _ hf]; rfl
  | some pid =>
    cases hc : o.command with
    | none => rw [run_command_events_exec_failed _ _ _ _ pid hf hc]; rfl
    | some t =>
      rw [run_command_events_ran _ _ _ _ pid t hf hc]
      by_cases hs : wait_status t = 0 <;> simp [hs, List.countP_cons, is_query]

theorem hierarchy_changed_events_queries (environ : Env) (cmd : List String)
    (ev : List XIHierarchyInfo) (oracle : Nat → Outcome) :
    (hierarchy_changed_events environ cmd ev oracle).countP is_query =
      (actionable ev).length := by
  induction ev generalizing oracle with
  | nil => rfl
  | cons info rest ih =>
    by_cases h : info.flags = 0
    · rw [hierarchy_changed_events_skip _ _ _ _ _ h, ih]
      simp [actionable, h]
    · rw [hierarchy_changed_events_act _ _ _ _ _ h, List.countP_append, ih,
        run_command_events_queries]
      simp [actionable, h, Nat.add_comm]

/-! ## Children never overlap -/

theorem outstanding_append (a b : List Event) :
    outstanding (a ++ b) = outstanding a + outstanding b := by
  simp [outstanding, List.map_append, List.sum_append]

theorem sequential_nil : Sequential [] := by
  intro p hp
  have : p = [] := List.prefix_nil.mp hp
  subst this
  simp [outstanding]

theorem sequential_append (a b : List Event) (ha : Sequential a) (h0 : outstanding a = 0)
    (hb : Sequential b) : Sequential (a ++ b) := by
  intro p hp
  rw [List.prefix_iff_eq_take] at hp
  rw [hp, List.take_append_eq_append_take, outstanding_append]
  by_cases hn : p.length ≤ a.length
  · have h2 : p.length - a.length = 0 := by omega
    have h1 := ha (List.take p.length a) (List.take_prefix _ _)
    rw [h2]
    simpa [outstanding] using h1
  · have h1 : List.take p.length a = a := List.take_of_length_le (by omega)
    have h2 := hb (List.take (p.length - a.length) b) (List.take_prefix _ _)
    rw [h1, h0]
    simpa using h2

theorem sequential_of_take (t : List Event)
    (h : ∀ n, 0 ≤ outstanding (t.take n) ∧ outstanding (t.take n) ≤ 1) : Sequential t := by
  intro p hp
  rw [List.prefix_iff_eq_take] at hp
  rw [hp]
  exact h _

theorem run_command_events_sequential (environ : Env) (cmd : List String)
    (info : XIHierarchyInfo) (o : Outcome) :
    Sequential (run_command_events environ cmd info o) ∧
      outstanding (run_command_events environ cmd info o) = 0 := by
  cases hf : o.fork with
  | none =>
    rw [run_command_events_fork_failed _ _ _ _ hf]
    refine ⟨sequential_of_take _ ?_, by simp [outstanding, delta]⟩
    intro n
    rcases n with _ | _ | _ | n <;> simp [outstanding, delta]
  | some pid =>
    cases hc : o.command with
    | none =>
      rw [run_command_events_exec_failed _ _ _ _ pid hf hc]
      refine ⟨sequential_of_take _ ?_, by simp [outstanding, delta]⟩
      intro n
      rcases n with _ | _ | _ | _ | _ | _ | _ | _ | _ | n <;> simp [outstanding, delta]
    | some t =>
      rw [run_command_events_ran _ _ _ _ pid t hf hc]
      by_cases hs : wait_status t = 0
      · simp only [hs, ne_eq, not_true_eq_false, if_false, List.append_nil]
        refine ⟨sequential_of_take _ ?_, by simp [outstanding, delta]⟩
        intro n
        rcases n with _ | _ | _ | _ | _ | _ | _ | n <;> simp [outstanding, delta]
      · simp only [hs, ne_eq, not_false_eq_true, if_true]
        refine ⟨sequential_of_take _ ?_, by simp [outstanding, delta]⟩
        intro n
        rcases n with _ | _ | _ | _ | _ | _ | _ | _ | n <;> simp [outstanding, delta]

theorem hierarchy_changed_events_sequential (environ : Env) (cmd : List String)
    (ev : List XIHierarchyInfo) (oracle : Nat → Outcome) :
    Sequential (hierarchy_changed_events environ cmd ev oracle) ∧
      outstanding (hierarchy_changed_events environ cmd ev oracle) = 0 := by
  induction ev generalizing oracle with
  | nil => exact ⟨sequential_nil, rfl⟩
  | cons info rest ih =>
    by_cases h : info.flags = 0
    · rw [hierarchy_changed_events_skip _ _ _ _ _ h]
      exact ih oracle
    · rw [hierarchy_changed_events_act _ _ _ _ _ h]
      obtain ⟨s1, z1⟩ := run_command_events_sequential environ cmd info (oracle 0)
      obtain ⟨s2, z2⟩ := ih (fun n => oracle (n + 1))
      exact ⟨sequential_append _ _ s1 z1 s2, by rw [outstanding_append, z1, z2]; rfl⟩

theorem fork_waited (environ : Env) (cmd : List String) (info : XIHierarchyInfo)
    (o : Outcome) (pid : Nat) (h : Event.fork pid ∈ run_command_events environ cmd info o) :
    ∃ l m r st, run_command_events environ cmd info o =
      l ++ Event.fork pid :: (m ++ Event.waitpid pid st :: r) := by
  cases hf : o.fork with
  | none =>
    rw [run_command_events_fork_failed _ _ _ _ hf] at h
    simp at h
  | some pid' =>
    cases hc : o.command with
    | none =>
      rw [run_command_events_exec_failed _ _ _ _ pid' hf hc] at h ⊢
      simp at h
      subst h
      exact ⟨[_], [_, _, _], [_, _], 256, rfl⟩
    | some t =>
      rw [run_command_events_ran _ _ _ _ pid' t hf hc] at h ⊢
      have hp : pid = pid' := by
        by_cases hs : wait_status t = 0 <;> simpa [hs] using h
      subst hp
      exact ⟨[_], [_, _], _, wait_status t, rfl⟩

/-- C1. For every payload (the empty one included), `hierarchy_changed` does
exactly what calling `run_command` once on each record with non-zero flags,
in payload order, does, and nothing for a record whose flags are zero; so the
number of `XIQueryDevice` calls, of which every call of `run_command` makes
exactly one, grows by the number of records with non-zero flags. -/
theorem dispatch_per_actionable_record (ev : List XIHierarchyInfo) (cmd : List String)
    (w : World) :
    hierarchy_changed ev cmd w =
      (ev.filter (fun info => decide (info.flags ≠ 0))).foldl
        (fun w info => run_command cmd info w) w ∧
    (hierarchy_changed ev cmd w).trace.countP is_query =
      w.trace.countP is_query + (ev.filter (fun info => decide (info.flags ≠ 0))).length := by
  constructor
  · induction ev generalizing w with
    | nil => rfl
    | cons info rest ih =>
      by_cases h : info.flags = 0
      · simp only [hierarchy_changed, h, ne_eq, not_true_eq_false, if_false, decide_False,
          Bool.false_eq_true, not_false_eq_true, List.filter_cons_of_neg]
        exact ih w
      · simp only [hierarchy_changed, h, ne_eq, not_false_eq_true, if_true, decide_True,
          List.filter_cons_of_pos, List.foldl_cons]
        exact ih _
  · rw [hierarchy_changed_eq, List.countP_append, hierarchy_changed_events_queries]
    rfl

/-- C1, at a concrete input: of two records, the first with flags 0 and the
second with flags `XISlaveAdded`, only the second is handed to `run_command`,
and the one child that is started is the one for the second record. -/
theorem dispatch_per_actionable_record_witness :
    (hierarchy_changed [⟨12, 3, 4, 1, 0⟩, ⟨13, 3, 4, 0, 4⟩] ["true"]
        (World.start [] [⟨[], some 100, some (.exited 0)⟩])).trace =
      [.XIQueryDevice [], .fork 100,
       .execvp (some "true") ["true"]
         [("DEVICE", "13"), ("ENABLED", "0"), ("FLAG_MASTER_ADDED", "0"),
          ("FLAG_MASTER_REMOVED", "0"), ("FLAG_SLAVE_ADDED", "1"), ("FLAG_SLAVE_REMOVED", "0"),
          ("FLAG_SLAVE_ATTACHED", "0"), ("FLAG_SLAVE_DETACHED", "0"),
          ("FLAG_DEVICE_ENABLED", "0"), ("FLAG_DEVICE_DISABLED", "0"),
          ("USE", "slave_keyboard")],
       .command_ended (.exited 0), .waitpid 100 0, .XIFreeDeviceInfo []] := by
  rw [(dispatch_per_actionable_record _ _ _).1]
  decide

/-- C2. For every payload and every two records A and B with non-zero flags,
A before B in the payload, the events of `hierarchy_changed` are: those of
the records before A, those of the call of `run_command` for A, those of the
records between, those of the call for B, those of the records after. When
the call for A creates a child, the wait on that child completes inside the
call for A, so before any event of the call for B and before B's child is
created; when the call for B starts no child is outstanding; and at no point
of the whole trace are two children outstanding. -/
theorem children_in_payload_order_never_overlap (cmd : List String)
    (pre mid post : List XIHierarchyInfo) (A B : XIHierarchyInfo) (w : World)
    (hA : A.flags ≠ 0) (hB : B.flags ≠ 0) :
    ∃ tpre tA tmid tB tpost : List Event,
      tA = run_command_events w.environ cmd A (w.oracle (actionable pre).length) ∧
      tB = run_command_events w.environ cmd B
        (w.oracle ((actionable pre).length + 1 + (actionable mid).length)) ∧
      (hierarchy_changed (pre ++ A :: (mid ++ B :: post)) cmd w).trace =
        w.trace ++ (tpre ++ tA ++ tmid ++ tB ++ tpost) ∧
      (∀ pid, Event.fork pid ∈ tA →
        ∃ l m r st, tA = l ++ Event.fork pid :: (m ++ Event.waitpid pid st :: r)) ∧
      outstanding (tpre ++ tA ++ tmid) = 0 ∧
      (∀ p, p <+: tpre ++ tA ++ tmid ++ tB ++ tpost →
        0 ≤ outstanding p ∧ outstanding p ≤ 1) := by
  have e : (actionable mid).length + 1 + (actionable pre).length =
      (actionable pre).length + 1 + (actionable mid).length := by omega
  have hdec : hierarchy_changed_events w.environ cmd (pre ++ A :: (mid ++ B :: post)) w.oracle =
      hierarchy_changed_events w.environ cmd pre w.oracle ++
      run_command_events w.environ cmd A (w.oracle (actionable pre).length) ++
      hierarchy_changed_events w.environ cmd mid
        (fun n => w.oracle (n + 1 + (actionable pre).length)) ++
      run_command_events w.environ cmd B
        (w.oracle ((actionable pre).length + 1 + (actionable mid).length)) ++
      hierarchy_changed_events w.environ cmd post
        (fun n => w.oracle (n + 1 + (actionable mid).length + 1 + (actionable pre).length)) := by
    simp only [hierarchy_changed_events_append, hierarchy_changed_events_act _ _ _ _ _ hA,
      hierarchy_changed_events_act _ _ _ _ _ hB, List.append_assoc, Nat.zero_add]
    rw [e]
  refine ⟨hierarchy_changed_events w.environ cmd pre w.oracle, _,
    hierarchy_changed_events w.environ cmd mid
      (fun n => w.oracle (n + 1 + (actionable pre).length)), _,
    hierarchy_changed_events w.environ cmd post
      (fun n => w.oracle (n + 1 + (actionable mid).length + 1 + (actionable pre).length)),
    rfl, rfl, ?_, ?_, ?_, ?_⟩
  · rw [hierarchy_changed_eq, hdec]
  · intro pid h
    exact fork_waited _ _ _ _ pid h
  · rw [outstanding_append, outstanding_append,
      (hierarchy_changed_events_sequential _ _ _ _).2,
      (hierarchy_changed_events_sequential _ _ _ _).2,
      (run_command_events_sequential _ _ _ _).2]
    rfl
  · have key : Sequential (hierarchy_changed_events w.environ cmd
        (pre ++ A :: (mid ++ B :: post)) w.oracle) :=
      (hierarchy_changed_events_sequential _ _ _ _).1
    rw [hdec] at key
    exact key

/-- C2, at a concrete input: a payload of three records, the second with
flags 0, dispatched with both forks succeeding. -/
theorem children_in_payload_order_never_overlap_witness :
    (⟨13, 3, 4, 0, 4⟩ : XIHierarchyInfo).flags ≠ 0 ∧
    (⟨15, 3, 4, 1, 64⟩ : XIHierarchyInfo).flags ≠ 0 ∧
    ∃ tpre tA tmid tB tpost : List Event,
      tA = run_command_events
        (World.start [] [⟨[], some 100, some (.exited 0)⟩, ⟨[], some 101, none⟩]).environ
        ["true"] ⟨13, 3, 4, 0, 4⟩
        ((World.start [] [⟨[], some 100, some (.exited 0)⟩, ⟨[], some 101, none⟩]).oracle
          (actionable []).length) ∧
      tB = run_command_events
        (World.start [] [⟨[], some 100, some (.exited 0)⟩, ⟨[], some 101, none⟩]).environ
        ["true"] ⟨15, 3, 4, 1, 64⟩
        ((World.start [] [⟨[], some 100, some (.exited 0)⟩, ⟨[], some 101, none⟩]).oracle
          ((actionable []).length + 1 + (actionable [⟨12, 3, 4, 1, 0⟩]).length)) ∧
      (hierarchy_changed ([] ++ ⟨13, 3, 4, 0, 4⟩ :: ([⟨12, 3, 4, 1, 0⟩] ++ ⟨15, 3, 4, 1, 64⟩ :: []))
          ["true"]
          (World.start [] [⟨[], some 100, some (.exited 0)⟩, ⟨[], some 101, none⟩])).trace =
        (World.start [] [⟨[], some 100, some (.exited 0)⟩, ⟨[], some 101, none⟩]).trace ++
          (tpre ++ tA ++ tmid ++ tB ++ tpost) ∧
      (∀ pid, Event.fork pid ∈ tA →
        ∃ l m r st, tA = l ++ Event.fork pid :: (m ++ Event.waitpid pid st :: r)) ∧
      outstanding (tpre ++ tA ++ tmid) = 0 ∧
      (∀ p, p <+: tpre ++ tA ++ tmid ++ tB ++ tpost →
        0 ≤ outstanding p ∧ outstanding p ≤ 1) :=
  ⟨by decide, by decide,
    children_in_payload_order_never_overlap ["true"] [] [⟨12, 3, 4, 1, 0⟩] []
      ⟨13, 3, 4, 0, 4⟩ ⟨15, 3, 4, 1, 64⟩
      (World.start [] [⟨[], some 100, some (.exited 0)⟩, ⟨[], some 101, none⟩])
      (by decide) (by decide)⟩

/-! ## The environment of the child -/

/-- C3. For every record (so for each of the 256 subsets of the eight defined
flag bits, and for any other value of `flags`), every inherited environment
and every device directory, the environment `run_command` builds for the
child has each `FLAG_*` variable equal to "1" when the corresponding bit of
`flags` is set and to "0" when it is not, and `ENABLED` equal to "1" when
`enabled` is non-zero and to "0" otherwise, whatever `flags` is. -/
theorem flag_variables_reflect_bits (environ : Env) (info : XIHierarchyInfo)
    (devices : List XIDeviceInfo) (idbuf : String) :
    getenv (child_environ environ info devices idbuf) "FLAG_MASTER_ADDED"
        = some (if info.flags.testBit 0 then "1" else "0") ∧
    getenv (child_environ environ info devices idbuf) "FLAG_MASTER_REMOVED"
        = some (if info.flags.testBit 1 then "1" else "0") ∧
    getenv (child_environ environ info devices idbuf) "FLAG_SLAVE_ADDED"
        = some (if info.flags.testBit 2 then "1" else "0") ∧
    getenv (child_environ environ info devices idbuf) "FLAG_SLAVE_REMOVED"
        = some (if info.flags.testBit 3 then "1" else "0") ∧
    getenv (child_environ environ info devices idbuf) "FLAG_SLAVE_ATTACHED"
        = some (if info.flags.testBit 4 then "1" else "0") ∧
    getenv (child_environ environ info devices idbuf) "FLAG_SLAVE_DETACHED"
        = some (if info.flags.testBit 5 then "1" else "0") ∧
    getenv (child_environ environ info devices idbuf) "FLAG_DEVICE_ENABLED"
        = some (if info.flags.testBit 6 then "1" else "0") ∧
    getenv (child_environ environ info devices idbuf) "FLAG_DEVICE_DISABLED"
        = some (if info.flags.testBit 7 then "1" else "0") ∧
    getenv (child_environ environ info devices idbuf) "ENABLED"
        = some (if info.enabled ≠ 0 then "1" else "0") := by
  simp only [child_environ, getenv_setenv, XIMasterAdded, XIMasterRemoved, XISlaveAdded,
    XISlaveRemoved, XISlaveAttached, XISlaveDetached, XIDeviceEnabled, XIDeviceDisabled,
    flag_value]
  refine ⟨?_, ?_, ?_, ?_, ?_, ?_, ?_, ?_, ?_⟩ <;> simp

/-- C4. For every 32-bit signed value of a record's `use` field, the `USE`
variable of the child is "none" for 0, "master_pointer" for 1,
"master_keyboard" for 2, "slave_pointer" for 3, "slave_keyboard" for 4,
"floating_slave" for 5, and for every other value "unknown_" followed by the
complete decimal rendering of the value: the 32-byte buffer never truncates
it, and no value leads to an error path. -/
theorem use_variable (environ : Env) (info : XIHierarchyInfo)
    (devices : List XIDeviceInfo) (idbuf : String) (huse : is_int info.use) :
    getenv (child_environ environ info devices idbuf) "USE" =
      some (if info.use = 0 then "none"
        else if info.use = 1 then "master_pointer"
        else if info.use = 2 then "master_keyboard"
        else if info.use = 3 then "slave_pointer"
        else if info.use = 4 then "slave_keyboard"
        else if info.use = 5 then "floating_slave"
        else "unknown_" ++ toString info.use) := by
  simp only [child_environ, getenv_setenv, XIMasterPointer, XIMasterKeyboard, XISlavePointer,
    XISlaveKeyboard, XIFloatingSlave, typebuf_complete info.use huse]
  simp

/-- C4, at a concrete input: `use = 99` gives `USE=unknown_99`. -/
theorem use_variable_witness :
    is_int 99 ∧
    getenv (child_environ [] ⟨7, 0, 99, 1, 4⟩ [] "7") "USE" = some "unknown_99" :=
  ⟨by decide, (use_variable [] ⟨7, 0, 99, 1, 4⟩ [] "7" (by decide)).trans (by decide)⟩

theorem find_first (l r : List XIDeviceInfo) (d : XIDeviceInfo) (id : Int)
    (hl : ∀ x ∈ l, x.deviceid ≠ id) (hd : d.deviceid = id) :
    (l ++ d :: r).find? (fun e => e.deviceid == id) = some d := by
  induction l with
  | nil => simp [hd]
  | cons x rest ih =>
    have hx : x.deviceid ≠ id := hl x (List.mem_cons_self _ _)
    have hr : ∀ y ∈ rest, y.deviceid ≠ id := fun y hy => hl y (List.mem_cons_of_mem _ hy)
    have hb : (x.deviceid == id) = false := by simpa using hx
    rw [List.cons_append, List.find?_cons, hb]
    exact ih hr

theorem find_none (l : List XIDeviceInfo) (id : Int) (hl : ∀ x ∈ l, x.deviceid ≠ id) :
    l.find? (fun e => e.deviceid == id) = none := by
  simp only [List.find?_eq_none]
  intro x hx
  simpa using hl x hx

theorem run_command_forked (cmd : List String) (info : XIHierarchyInfo) (w : World)
    (pid : Nat) (h : (w.oracle 0).fork = some pid) :
    ∃ rest, (run_command cmd info w).trace =
      w.trace ++ Event.XIQueryDevice (w.oracle 0).devices :: Event.fork pid ::
        Event.execvp cmd.head? cmd
          (child_environ w.environ info (w.oracle 0).devices
            (snprintf 32 (toString info.deviceid))) :: rest := by
  rw [run_command_eq]
  cases hc : (w.oracle 0).command with
  | none => exact ⟨_, by rw [run_command_events_exec_failed _ _ _ _ pid h hc]⟩
  | some t => exact ⟨_, by rw [run_command_events_ran _ _ _ _ pid t h hc]; rfl⟩

/-- C5. For every record whose `deviceid` is a 32-bit signed value and every
device directory in which `d` is the first entry with that `deviceid`, the
child that `run_command` starts calls `execvp` with an environment in which
`DEVICE` is the complete decimal rendering of `deviceid` (the 32-byte buffer
does not truncate it) and `DEVICE_NAME` is the name of `d`. -/
theorem device_and_name (cmd : List String) (info : XIHierarchyInfo) (w : World) (pid : Nat)
    (l r : List XIDeviceInfo) (d : XIDeviceInfo)
    (hfork : (w.oracle 0).fork = some pid) (hid : is_int info.deviceid)
    (hdir : (w.oracle 0).devices = l ++ d :: r)
    (hl : ∀ x ∈ l, x.deviceid ≠ info.deviceid) (hd : d.deviceid = info.deviceid) :
    ∃ env rest, (run_command cmd info w).trace =
        w.trace ++ Event.XIQueryDevice (w.oracle 0).devices :: Event.fork pid ::
          Event.execvp cmd.head? cmd env :: rest ∧
      getenv env "DEVICE" = some (toString info.deviceid) ∧
      getenv env "DEVICE_NAME" = some d.name := by
  obtain ⟨rest, hrest⟩ := run_command_forked cmd info w pid hfork
  refine ⟨_, rest, hrest, ?_, ?_⟩
  · simp only [child_environ, hdir, find_first l r d _ hl hd, getenv_setenv,
      idbuf_complete _ hid]
    simp
  · simp only [child_environ, hdir, find_first l r d _ hl hd, getenv_setenv]
    simp

/-- C5, at a concrete input: the example of the source's documentation.
The record for device 15 (enabled, `XIDeviceEnabled`, slave keyboard), with
device 15 called "mini keyboard Consumer Control" in the directory, starts
the command with `DEVICE=15`, that name in `DEVICE_NAME`, `ENABLED=1`,
`FLAG_DEVICE_ENABLED=1`, every other flag variable 0 and
`USE=slave_keyboard`. -/
theorem device_and_name_witness :
    ((World.start [("HOME", "/root")] [⟨example_directory, some 100, some (.exited 0)⟩]).oracle
      0).fork = some 100 ∧
    is_int example_record.deviceid ∧
    ((World.start [("HOME", "/root")] [⟨example_directory, some 100, some (.exited 0)⟩]).oracle
      0).devices = [⟨2, "Virtual core pointer"⟩, ⟨3, "Virtual core keyboard"⟩] ++
        ⟨15, "mini keyboard Consumer Control"⟩ :: [] ∧
    (∀ x ∈ [(⟨2, "Virtual core pointer"⟩ : XIDeviceInfo), ⟨3, "Virtual core keyboard"⟩],
      x.deviceid ≠ example_record.deviceid) ∧
    (⟨15, "mini keyboard Consumer Control"⟩ : XIDeviceInfo).deviceid = example_record.deviceid ∧
    (∃ env rest, (run_command ["env"] example_record
        (World.start [("HOME", "/root")]
          [⟨example_directory, some 100, some (.exited 0)⟩])).trace =
        (World.start [("HOME", "/root")] [⟨example_directory, some 100, some (.exited 0)⟩]).trace
          ++ Event.XIQueryDevice
            ((World.start [("HOME", "/root")]
              [⟨example_directory, some 100, some (.exited 0)⟩]).oracle 0).devices ::
          Event.fork 100 :: Event.execvp (["env"] : List String).head? ["env"] env :: rest ∧
      getenv env "DEVICE" = some (toString example_record.deviceid) ∧
      getenv env "DEVICE_NAME" =
        some (⟨15, "mini keyboard Consumer Control"⟩ : XIDeviceInfo).name) ∧
    (run_command ["env"] example_record
        (World.start [("HOME", "/root")]
          [⟨example_directory, some 100, some (.exited 0)⟩])).trace =
      [.XIQueryDevice example_directory, .fork 100,
       .execvp (some "env") ["env"]
         [("HOME", "/root"), ("DEVICE", "15"),
          ("DEVICE_NAME", "mini keyboard Consumer Control"), ("ENABLED", "1"),
          ("FLAG_MASTER_ADDED", "0"), ("FLAG_MASTER_REMOVED", "0"), ("FLAG_SLAVE_ADDED", "0"),
          ("FLAG_SLAVE_REMOVED", "0"), ("FLAG_SLAVE_ATTACHED", "0"),
          ("FLAG_SLAVE_DETACHED", "0"), ("FLAG_DEVICE_ENABLED", "1"),
          ("FLAG_DEVICE_DISABLED", "0"), ("USE", "slave_keyboard")],
       .command_ended (.exited 0), .waitpid 100 0, .XIFreeDeviceInfo example_directory] :=
  ⟨rfl, by decide, rfl, by decide, rfl,
    device_and_name ["env"] example_record
      (World.start [("HOME", "/root")] [⟨example_directory, some 100, some (.exited 0)⟩]) 100
      [⟨2, "Virtual core pointer"⟩, ⟨3, "Virtual core keyboard"⟩] []
      ⟨15, "mini keyboard Consumer Control"⟩ rfl (by decide) rfl (by decide) rfl,
    by decide⟩

/-! ## A device that is not in the directory -/

/-- C6 as stated fails. The watcher runs with `DEVICE_NAME=old keyboard` in
its own environment; the record is for device 15, which is not in the
directory. The child is started, and its environment still has
`DEVICE_NAME=old keyboard`: neither unset nor empty. -/
theorem lookup_miss_inherits_ambient_name :
    (∀ d ∈ stale_directory, d.deviceid ≠ 15) ∧
    (run_command ["env"] ⟨15, 0, 0, 0, 8⟩
        (World.start [("DEVICE_NAME", "old keyboard")]
          [⟨stale_directory, some 100, some (.exited 0)⟩])).trace =
      [.XIQueryDevice stale_directory, .fork 100,
       .execvp (some "env") ["env"]
         [("DEVICE_NAME", "old keyboard"), ("DEVICE", "15"), ("ENABLED", "0"),
          ("FLAG_MASTER_ADDED", "0"), ("FLAG_MASTER_REMOVED", "0"), ("FLAG_SLAVE_ADDED", "0"),
          ("FLAG_SLAVE_REMOVED", "1"), ("FLAG_SLAVE_ATTACHED", "0"),
          ("FLAG_SLAVE_DETACHED", "0"), ("FLAG_DEVICE_ENABLED", "0"),
          ("FLAG_DEVICE_DISABLED", "0"), ("USE", "none")],
       .command_ended (.exited 0), .waitpid 100 0, .XIFreeDeviceInfo stale_directory] ∧
    ¬ (getenv
        [("DEVICE_NAME", "old keyboard"), ("DEVICE", "15"), ("ENABLED", "0"),
          ("FLAG_MASTER_ADDED", "0"), ("FLAG_MASTER_REMOVED", "0"), ("FLAG_SLAVE_ADDED", "0"),
          ("FLAG_SLAVE_REMOVED", "1"), ("FLAG_SLAVE_ATTACHED", "0"),
          ("FLAG_SLAVE_DETACHED", "0"), ("FLAG_DEVICE_ENABLED", "0"),
          ("FLAG_DEVICE_DISABLED", "0"), ("USE", "none")] "DEVICE_NAME" = none ∨
      getenv
        [("DEVICE_NAME", "old keyboard"), ("DEVICE", "15"), ("ENABLED", "0"),
          ("FLAG_MASTER_ADDED", "0"), ("FLAG_MASTER_REMOVED", "0"), ("FLAG_SLAVE_ADDED", "0"),
          ("FLAG_SLAVE_REMOVED", "1"), ("FLAG_SLAVE_ATTACHED", "0"),
          ("FLAG_SLAVE_DETACHED", "0"), ("FLAG_DEVICE_ENABLED", "0"),
          ("FLAG_DEVICE_DISABLED", "0"), ("USE", "none")] "DEVICE_NAME" = some "") := by
  refine ⟨by decide, by decide, by decide⟩

/-- C6, amended. For every ambient environment that does not define
`DEVICE_NAME`, every record and every device directory with no entry for the
record's `deviceid` (the empty directory included), the environment of the
child that `run_command` starts has `DEVICE_NAME` unset, and the dispatch is
still carried out: the command is executed with all the other derived
variables set. -/
theorem lookup_miss_leaves_name_unset (cmd : List String) (info : XIHierarchyInfo) (w : World)
    (pid : Nat) (hfork : (w.oracle 0).fork = some pid)
    (hmiss : ∀ d ∈ (w.oracle 0).devices, d.deviceid ≠ info.deviceid)
    (hamb : getenv w.environ "DEVICE_NAME" = none) :
    ∃ env rest, (run_command cmd info w).trace =
        w.trace ++ Event.XIQueryDevice (w.oracle 0).devices :: Event.fork pid ::
          Event.execvp cmd.head? cmd env :: rest ∧
      getenv env "DEVICE_NAME" = none ∧
      ∀ name ∈ ["DEVICE", "ENABLED", "FLAG_MASTER_ADDED", "FLAG_MASTER_REMOVED",
          "FLAG_SLAVE_ADDED", "FLAG_SLAVE_REMOVED", "FLAG_SLAVE_ATTACHED",
          "FLAG_SLAVE_DETACHED", "FLAG_DEVICE_ENABLED", "FLAG_DEVICE_DISABLED", "USE"],
        (getenv env name).isSome = true := by
  obtain ⟨rest, hrest⟩ := run_command_forked cmd info w pid hfork
  have hname : getenv (child_environ w.environ info (w.oracle 0).devices
      (snprintf 32 (toString info.deviceid))) "DEVICE_NAME" = none := by
    simp only [child_environ, find_none _ _ hmiss, getenv_setenv]
    simpa using hamb
  refine ⟨_, rest, hrest, hname, ?_⟩
  intro name hmem
  simp only [List.mem_cons, List.mem_singleton, List.not_mem_nil, or_false] at hmem
  simp only [child_environ, find_none _ _ hmiss, getenv_setenv]
  rcases hmem with h | h | h | h | h | h | h | h | h | h | h <;> subst h <;> simp

/-- C6 amended, at a concrete input: device 15 is not in the directory and
the ambient environment does not define `DEVICE_NAME`. -/
theorem lookup_miss_leaves_name_unset_witness :
    ((World.start [("HOME", "/root")] [⟨stale_directory, some 100, none⟩]).oracle 0).fork
      = some 100 ∧
    (∀ d ∈ ((World.start [("HOME", "/root")] [⟨stale_directory, some 100, none⟩]).oracle
        0).devices, d.deviceid ≠ example_record.deviceid) ∧
    getenv (World.start [("HOME", "/root")] [⟨stale_directory, some 100, none⟩]).environ
      "DEVICE_NAME" = none ∧
    ∃ env rest, (run_command ["env"] example_record
        (World.start [("HOME", "/root")] [⟨stale_directory, some 100, none⟩])).trace =
        (World.start [("HOME", "/root")] [⟨stale_directory, some 100, none⟩]).trace ++
          Event.XIQueryDevice
            ((World.start [("HOME", "/root")] [⟨stale_directory, some 100, none⟩]).oracle
              0).devices ::
          Event.fork 100 :: Event.execvp (["env"] : List String).head? ["env"] env :: rest ∧
      getenv env "DEVICE_NAME" = none ∧
      ∀ name ∈ ["DEVICE", "ENABLED", "FLAG_MASTER_ADDED", "FLAG_MASTER_REMOVED",
          "FLAG_SLAVE_ADDED", "FLAG_SLAVE_REMOVED", "FLAG_SLAVE_ATTACHED",
          "FLAG_SLAVE_DETACHED", "FLAG_DEVICE_ENABLED", "FLAG_DEVICE_DISABLED", "USE"],
        (getenv env name).isSome = true :=
  ⟨rfl, by decide, by decide,
    lookup_miss_leaves_name_unset ["env"] example_record
      (World.start [("HOME", "/root")] [⟨stale_directory, some 100, none⟩]) 100 rfl
      (by decide) (by decide)⟩

/-! ## The environment and the arguments at `execvp` -/

theorem main_loop_single (xi_major : Int) (argv : List String) (info : XIHierarchyInfo)
    (w : World) (h : info.flags ≠ 0) :
    main_loop xi_major argv [hierarchy_event xi_major [info]] w =
      run_command (argv.drop 1) info w := by
  simp [main_loop, hierarchy_event, hierarchy_changed, h]

/-- C7 as stated fails for `DEVICE_NAME`. The watcher runs with
`DEVICE_NAME=Virtual core keyboard` in its own environment and the directory
is empty, so that no name is derived for device 9; the child's environment
has the ambient `DEVICE_NAME`, not the derived (unset or empty) one. -/
theorem ambient_name_not_overridden :
    List.find? (fun d => d.deviceid == (9 : Int)) ([] : List XIDeviceInfo) = none ∧
    (main_loop 131 ["xi2watch", "sh", "-c", "echo $DEVICE_NAME"]
        [hierarchy_event 131 [⟨9, 0, 3, 0, 128⟩]]
        (World.start [("DISPLAY", ":0"), ("DEVICE_NAME", "Virtual core keyboard")]
          [⟨[], some 7, some (.exited 0)⟩])).trace =
      [.XIQueryDevice [], .fork 7,
       .execvp (some "sh") ["sh", "-c", "echo $DEVICE_NAME"]
         [("DISPLAY", ":0"), ("DEVICE_NAME", "Virtual core keyboard"), ("DEVICE", "9"),
          ("ENABLED", "0"), ("FLAG_MASTER_ADDED", "0"), ("FLAG_MASTER_REMOVED", "0"),
          ("FLAG_SLAVE_ADDED", "0"), ("FLAG_SLAVE_REMOVED", "0"), ("FLAG_SLAVE_ATTACHED", "0"),
          ("FLAG_SLAVE_DETACHED", "0"), ("FLAG_DEVICE_ENABLED", "0"),
          ("FLAG_DEVICE_DISABLED", "1"), ("USE", "slave_pointer")],
       .command_ended (.exited 0), .waitpid 7 0, .XIFreeDeviceInfo []] ∧
    getenv
        [("DISPLAY", ":0"), ("DEVICE_NAME", "Virtual core keyboard"), ("DEVICE", "9"),
          ("ENABLED", "0"), ("FLAG_MASTER_ADDED", "0"), ("FLAG_MASTER_REMOVED", "0"),
          ("FLAG_SLAVE_ADDED", "0"), ("FLAG_SLAVE_REMOVED", "0"), ("FLAG_SLAVE_ATTACHED", "0"),
          ("FLAG_SLAVE_DETACHED", "0"), ("FLAG_DEVICE_ENABLED", "0"),
          ("FLAG_DEVICE_DISABLED", "1"), ("USE", "slave_pointer")] "DEVICE_NAME" =
      some "Virtual core keyboard" := by
  refine ⟨by decide, by decide, by decide⟩

/-- C7, amended. For every ambient environment and every record (its
`deviceid` and `use` 32-bit signed values), when `main` receives a hierarchy
event with that record and the child is created, the child calls `execvp`
with the command-line vector after the program name, unmodified, and with the
ambient environment changed as follows: `DEVICE`, `ENABLED`, the eight
`FLAG_*` variables and `USE` have their derived values even when the ambient
environment defines them; `DEVICE_NAME` has the name of the first directory
entry with the record's `deviceid` when there is one, even when the ambient
environment defines it, and is unset when there is none and the ambient
environment does not define it; every variable with another name has exactly
its ambient value (absent stays absent). -/
theorem child_environment_is_ambient_overridden (xi_major : Int) (argv : List String)
    (info : XIHierarchyInfo) (w : World) (pid : Nat)
    (hflags : info.flags ≠ 0) (hfork : (w.oracle 0).fork = some pid)
    (hid : is_int info.deviceid) (huse : is_int info.use) :
    ∃ env rest, (main_loop xi_major argv [hierarchy_event xi_major [info]] w).trace =
        w.trace ++ Event.XIQueryDevice (w.oracle 0).devices :: Event.fork pid ::
          Event.execvp (argv.drop 1).head? (argv.drop 1) env :: rest ∧
      getenv env "DEVICE" = some (toString info.deviceid) ∧
      (∀ d, (w.oracle 0).devices.find? (fun e => e.deviceid == info.deviceid) = some d →
        getenv env "DEVICE_NAME" = some d.name) ∧
      ((w.oracle 0).devices.find? (fun e => e.deviceid == info.deviceid) = none →
        getenv w.environ "DEVICE_NAME" = none → getenv env "DEVICE_NAME" = none) ∧
      getenv env "ENABLED" = some (if info.enabled ≠ 0 then "1" else "0") ∧
      getenv env "FLAG_MASTER_ADDED" = some (if info.flags.testBit 0 then "1" else "0") ∧
      getenv env "FLAG_MASTER_REMOVED" = some (if info.flags.testBit 1 then "1" else "0") ∧
      getenv env "FLAG_SLAVE_ADDED" = some (if info.flags.testBit 2 then "1" else "0") ∧
      getenv env "FLAG_SLAVE_REMOVED" = some (if info.flags.testBit 3 then "1" else "0") ∧
      getenv env "FLAG_SLAVE_ATTACHED" = some (if info.flags.testBit 4 then "1" else "0") ∧
      getenv env "FLAG_SLAVE_DETACHED" = some (if info.flags.testBit 5 then "1" else "0") ∧
      getenv env "FLAG_DEVICE_ENABLED" = some (if info.flags.testBit 6 then "1" else "0") ∧
      getenv env "FLAG_DEVICE_DISABLED" = some (if info.flags.testBit 7 then "1" else "0") ∧
      getenv env "USE" =
        some (if info.use = 0 then "none"
          else if info.use = 1 then "master_pointer"
          else if info.use = 2 then "master_keyboard"
          else if info.use = 3 then "slave_pointer"
          else if info.use = 4 then "slave_keyboard"
          else if info.use = 5 then "floating_slave"
          else "unknown_" ++ toString info.use) ∧
      ∀ name, name ∉ ["DEVICE", "DEVICE_NAME", "ENABLED", "FLAG_MASTER_ADDED",
          "FLAG_MASTER_REMOVED", "FLAG_SLAVE_ADDED", "FLAG_SLAVE_REMOVED",
          "FLAG_SLAVE_ATTACHED", "FLAG_SLAVE_DETACHED", "FLAG_DEVICE_ENABLED",
          "FLAG_DEVICE_DISABLED", "USE"] →
        getenv env name = getenv w.environ name := by
  obtain ⟨rest, hrest⟩ := run_command_forked (argv.drop 1) info w pid hfork
  rw [main_loop_single xi_major argv info w hflags]
  refine ⟨_, rest, hrest, ?_⟩
  simp only [child_environ, getenv_setenv, XIMasterAdded, XIMasterRemoved, XISlaveAdded,
    XISlaveRemoved, XISlaveAttached, XISlaveDetached, XIDeviceEnabled, XIDeviceDisabled,
    flag_value, XIMasterPointer, XIMasterKeyboard, XISlavePointer,
    XISlaveKeyboard, XIFloatingSlave, typebuf_complete info.use huse,
    idbuf_complete info.deviceid hid]
  cases (w.oracle 0).devices.find? (fun d => d.deviceid == info.deviceid) with
  | none =>
    refine ⟨?_, ?_, ?_, ?_, ?_, ?_, ?_, ?_, ?_, ?_, ?_, ?_, ?_, ?_⟩
    iterate 2 simp [getenv_setenv]
    · intro _ hamb
      simpa [getenv_setenv] using hamb
    iterate 10 simp [getenv_setenv]
    intro name hname
    simp only [List.mem_cons, List.mem_singleton, List.not_mem_nil, or_false, not_or]
      at hname
    obtain ⟨h1, h2, h3, h4, h5, h6, h7, h8, h9, h10, h11, h12⟩ := hname
    simp [getenv_setenv, Ne.symm h1, Ne.symm h2, Ne.symm h3, Ne.symm h4, Ne.symm h5,
      Ne.symm h6, Ne.symm h7, Ne.symm h8, Ne.symm h9, Ne.symm h10, Ne.symm h11, Ne.symm h12]
  | some d =>
    refine ⟨?_, ?_, ?_, ?_, ?_, ?_, ?_, ?_, ?_, ?_, ?_, ?_, ?_, ?_⟩
    · simp [getenv_setenv]
    · intro d' hd'
      cases hd'
      simp [getenv_setenv]
    · intro h
      cases h
    iterate 10 simp [getenv_setenv]
    intro name hname
    simp only [List.mem_cons, List.mem_singleton, List.not_mem_nil, or_false, not_or]
      at hname
    obtain ⟨h1, h2, h3, h4, h5, h6, h7, h8, h9, h10, h11, h12⟩ := hname
    simp [getenv_setenv, Ne.symm h1, Ne.symm h2, Ne.symm h3, Ne.symm h4, Ne.symm h5,
      Ne.symm h6, Ne.symm h7, Ne.symm h8, Ne.symm h9, Ne.symm h10, Ne.symm h11, Ne.symm h12]

/-- C7 amended, at a concrete input: the ambient `DEVICE=1` and `USE=x` are
overridden, `HOME` is inherited. -/
theorem child_environment_is_ambient_overridden_witness :
    example_record.flags ≠ 0 ∧ (example_world.oracle 0).fork = some 100 ∧
    is_int example_record.deviceid ∧ is_int example_record.use ∧
    ∃ env rest, (main_loop 131 ["xi2watch", "env"]
          [hierarchy_event 131 [example_record]] example_world).trace =
        example_world.trace ++ Event.XIQueryDevice (example_world.oracle 0).devices ::
          Event.fork 100 ::
          Event.execvp (["xi2watch", "env"].drop 1).head? (["xi2watch", "env"].drop 1) env ::
          rest ∧
      getenv env "DEVICE" = some (toString example_record.deviceid) ∧
      (∀ d, (example_world.oracle 0).devices.find?
          (fun e => e.deviceid == example_record.deviceid) = some d →
        getenv env "DEVICE_NAME" = some d.name) ∧
      ((example_world.oracle 0).devices.find?
          (fun e => e.deviceid == example_record.deviceid) = none →
        getenv example_world.environ "DEVICE_NAME" = none →
        getenv env "DEVICE_NAME" = none) ∧
      getenv env "ENABLED" = some (if example_record.enabled ≠ 0 then "1" else "0") ∧
      getenv env "FLAG_MASTER_ADDED" =
        some (if example_record.flags.testBit 0 then "1" else "0") ∧
      getenv env "FLAG_MASTER_REMOVED" =
        some (if example_record.flags.testBit 1 then "1" else "0") ∧
      getenv env "FLAG_SLAVE_ADDED" =
        some (if example_record.flags.testBit 2 then "1" else "0") ∧
      getenv env "FLAG_SLAVE_REMOVED" =
        some (if example_record.flags.testBit 3 then "1" else "0") ∧
      getenv env "FLAG_SLAVE_ATTACHED" =
        some (if example_record.flags.testBit 4 then "1" else "0") ∧
      getenv env "FLAG_SLAVE_DETACHED" =
        some (if example_record.flags.testBit 5 then "1" else "0") ∧
      getenv env "FLAG_DEVICE_ENABLED" =
        some (if example_record.flags.testBit 6 then "1" else "0") ∧
      getenv env "FLAG_DEVICE_DISABLED" =
        some (if example_record.flags.testBit 7 then "1" else "0") ∧
      getenv env "USE" =
        some (if example_record.use = 0 then "none"
          else if example_record.use = 1 then "master_pointer"
          else if example_record.use = 2 then "master_keyboard"
          else if example_record.use = 3 then "slave_pointer"
          else if example_record.use = 4 then "slave_keyboard"
          else if example_record.use = 5 then "floating_slave"
          else "unknown_" ++ toString example_record.use) ∧
      ∀ name, name ∉ ["DEVICE", "DEVICE_NAME", "ENABLED", "FLAG_MASTER_ADDED",
          "FLAG_MASTER_REMOVED", "FLAG_SLAVE_ADDED", "FLAG_SLAVE_REMOVED",
          "FLAG_SLAVE_ATTACHED", "FLAG_SLAVE_DETACHED", "FLAG_DEVICE_ENABLED",
          "FLAG_DEVICE_DISABLED", "USE"] →
        getenv env name = getenv example_world.environ name :=
  ⟨by decide, rfl, by decide, by decide,
    child_environment_is_ambient_overridden 131 ["xi2watch", "env"] example_record
      example_world 100 (by decide) rfl (by decide) (by decide)⟩

/-! ## Failures of a dispatch -/

theorem main_loop_cons_hierarchy (xi_major : Int) (argv : List String)
    (data : List XIHierarchyInfo) (evs : List XEvent) (w : World) :
    main_loop xi_major argv (hierarchy_event xi_major data :: evs) w =
      main_loop xi_major argv evs (hierarchy_changed data (argv.drop 1) w) := by
  simp [main_loop, hierarchy_event]

theorem main_loop_next_record (xi_major : Int) (argv : List String) (info : XIHierarchyInfo)
    (rest : List XIHierarchyInfo) (evs : List XEvent) (w : World) (h : info.flags ≠ 0) :
    main_loop xi_major argv (hierarchy_event xi_major (info :: rest) :: evs) w =
      main_loop xi_major argv (hierarchy_event xi_major rest :: evs)
        (run_command (argv.drop 1) info w) := by
  rw [main_loop_cons_hierarchy, main_loop_cons_hierarchy]
  simp [hierarchy_changed, h]

theorem main_loop_frame (xi_major : Int) (argv : List String) (evs : List XEvent)
    (environ : Env) (oracle : Nat → Outcome) :
    ∃ (t : List Event) (oracle' : Nat → Outcome), ∀ tr,
      main_loop xi_major argv evs { environ := environ, oracle := oracle, trace := tr } =
        { environ := environ, oracle := oracle', trace := tr ++ t } := by
  induction evs generalizing oracle with
  | nil => exact ⟨[], oracle, fun tr => by simp [main_loop]⟩
  | cons ev evs ih =>
    by_cases hc : ev.type = GenericEvent ∧ ev.extension = xi_major
    · cases hd : ev.data with
      | none =>
        obtain ⟨t, o', h⟩ := ih oracle
        exact ⟨t, o', fun tr => by simp only [main_loop, hc, hd]; exact h tr⟩
      | some data =>
        by_cases he : ev.evtype = XI_HierarchyChanged
        · obtain ⟨t, o', h⟩ := ih (fun n => oracle (n + (actionable data).length))
          refine ⟨hierarchy_changed_events environ (argv.drop 1) data oracle ++ t, o',
            fun tr => ?_⟩
          simp only [main_loop, hc, hd, he, and_self, if_true]
          rw [hierarchy_changed_eq, h, List.append_assoc]
        · obtain ⟨t, o', h⟩ := ih oracle
          exact ⟨t, o', fun tr => by simp only [main_loop, hc, hd, he, if_false]; exact h tr⟩
    · obtain ⟨t, o', h⟩ := ih oracle
      exact ⟨t, o', fun tr => by simp only [main_loop, hc, if_false]; exact h tr⟩

theorem main_keeps_running (argv : List String) (s : Startup) (xi_major : Int)
    (evs : List XEvent) (w : World) (hargc : 2 ≤ argv.length) (hd : s.display = true)
    (hx : s.xi_major = some xi_major) (hc : s.calloc = true) :
    (main argv s evs w).2 = none := by
  have : ¬ argv.length < 2 := by omega
  simp [main, this, hd, hx, hc, connect_events]

/-- C8. For every termination `t` of a dispatched child that `waitpid` can
report, `run_command` writes "Child failed" exactly when `t` is not a normal
termination with exit code 0 (a non-zero exit code, or a terminating signal);
in either case it returns, the loop goes on with the remaining records of the
payload and the following events, and `main` does not exit. -/
theorem child_failure_is_reported (xi_major : Int) (argv : List String)
    (info : XIHierarchyInfo) (rest : List XIHierarchyInfo) (evs : List XEvent) (w : World)
    (pid : Nat) (t : Termination) (hflags : info.flags ≠ 0)
    (hfork : (w.oracle 0).fork = some pid) (hcmd : (w.oracle 0).command = some t)
    (ht : t.wf) :
    (run_command (argv.drop 1) info w).trace =
      w.trace ++
        ([.XIQueryDevice (w.oracle 0).devices, .fork pid,
          .execvp (argv.drop 1).head? (argv.drop 1)
            (child_environ w.environ info (w.oracle 0).devices
              (snprintf 32 (toString info.deviceid))),
          .command_ended t, .waitpid pid (wait_status t)]
        ++ (if t = .exited 0 then [] else [.fprintf_stderr "Child failed\n"])
        ++ [.XIFreeDeviceInfo (w.oracle 0).devices]) ∧
    main_loop xi_major argv (hierarchy_event xi_major (info :: rest) :: evs) w =
      main_loop xi_major argv (hierarchy_event xi_major rest :: evs)
        (run_command (argv.drop 1) info w) ∧
    ∀ s : Startup, 2 ≤ argv.length → s.display = true → s.xi_major = some xi_major →
      s.calloc = true →
      (main argv s (hierarchy_event xi_major (info :: rest) :: evs) w).2 = none := by
  refine ⟨?_, main_loop_next_record xi_major argv info rest evs w hflags,
    fun s h1 h2 h3 h4 => main_keeps_running argv s xi_major _ w h1 h2 h3 h4⟩
  rw [run_command_eq, run_command_events_ran _ _ _ _ pid t hfork hcmd]
  by_cases h0 : t = .exited 0
  · subst h0
    simp [wait_status]
  · have hs : wait_status t ≠ 0 := fun h => h0 ((wait_status_eq_zero t ht).1 h)
    simp [hs, h0]

/-- C8, at a concrete input: the child of the first record exits with status
2; "Child failed" is written, the second record is dispatched, and `main` is
still running. -/
theorem child_failure_is_reported_witness :
    example_record.flags ≠ 0 ∧
    (Termination.exited 2).wf ∧
    (main ["xi2watch", "false"] ⟨true, some 131, true⟩
        [hierarchy_event 131 [example_record, ⟨16, 3, 4, 1, 64⟩]]
        (World.start [] [⟨[], some 100, some (.exited 2)⟩,
          ⟨[], some 101, some (.exited 0)⟩])).2 = none ∧
    (main_loop 131 ["xi2watch", "false"]
        [hierarchy_event 131 [example_record, ⟨16, 3, 4, 1, 64⟩]]
        (World.start [] [⟨[], some 100, some (.exited 2)⟩,
          ⟨[], some 101, some (.exited 0)⟩])).trace =
      [.XIQueryDevice [], .fork 100,
       .execvp (some "false") ["false"]
         [("DEVICE", "15"), ("ENABLED", "1"), ("FLAG_MASTER_ADDED", "0"),
          ("FLAG_MASTER_REMOVED", "0"), ("FLAG_SLAVE_ADDED", "0"), ("FLAG_SLAVE_REMOVED", "0"),
          ("FLAG_SLAVE_ATTACHED", "0"), ("FLAG_SLAVE_DETACHED", "0"),
          ("FLAG_DEVICE_ENABLED", "1"), ("FLAG_DEVICE_DISABLED", "0"),
          ("USE", "slave_keyboard")],
       .command_ended (.exited 2), .waitpid 100 512, .fprintf_stderr "Child failed\n",
       .XIFreeDeviceInfo [],
       .XIQueryDevice [], .fork 101,
       .execvp (some "false") ["false"]
         [("DEVICE", "16"), ("ENABLED", "1"), ("FLAG_MASTER_ADDED", "0"),
          ("FLAG_MASTER_REMOVED", "0"), ("FLAG_SLAVE_ADDED", "0"), ("FLAG_SLAVE_REMOVED", "0"),
          ("FLAG_SLAVE_ATTACHED", "0"), ("FLAG_SLAVE_DETACHED", "0"),
          ("FLAG_DEVICE_ENABLED", "1"), ("FLAG_DEVICE_DISABLED", "0"),
          ("USE", "slave_keyboard")],
       .command_ended (.exited 0), .waitpid 101 0, .XIFreeDeviceInfo []] :=
  ⟨by decide, by decide,
    (child_failure_is_reported 131 ["xi2watch", "false"] example_record [⟨16, 3, 4, 1, 64⟩] []
      (World.start [] [⟨[], some 100, some (.exited 2)⟩, ⟨[], some 101, some (.exited 0)⟩])
      100 (.exited 2) (by decide) rfl rfl (by decide)).2.2 ⟨true, some 131, true⟩
      (by decide) rfl rfl rfl,
    by
      rw [(child_failure_is_reported 131 ["xi2watch", "false"] example_record
        [⟨16, 3, 4, 1, 64⟩] []
        (World.start [] [⟨[], some 100, some (.exited 2)⟩, ⟨[], some 101, some (.exited 0)⟩])
        100 (.exited 2) (by decide) rfl rfl (by decide)).2.1]
      decide⟩

/-- C9. When `fork` fails for a record with non-zero flags, `run_command`
queries the directory, writes the `fork` diagnostic and returns: no child is
created and none is waited for. The watcher goes on: what it does next, for
the later records of the payload and for the following events, is what it
does for them when started after that call, and `main` does not exit. When
`fork` succeeds and `execvp` fails, the child writes the `exec` diagnostic
and exits with code 1, and the parent, having waited for it, writes "Child
failed" and releases the directory. -/
theorem fork_failure_is_survived (xi_major : Int) (argv : List String)
    (info : XIHierarchyInfo) (rest : List XIHierarchyInfo) (evs : List XEvent) (w : World)
    (hflags : info.flags ≠ 0) (hfork : (w.oracle 0).fork = none) :
    (run_command (argv.drop 1) info w).trace =
      w.trace ++ [.XIQueryDevice (w.oracle 0).devices, .perror "fork"] ∧
    (∃ t, (main_loop xi_major argv (hierarchy_event xi_major (info :: rest) :: evs) w).trace =
        w.trace ++ [.XIQueryDevice (w.oracle 0).devices, .perror "fork"] ++ t ∧
      (main_loop xi_major argv (hierarchy_event xi_major rest :: evs)
        { w with oracle := fun n => w.oracle (n + 1) }).trace = w.trace ++ t) ∧
    (∀ s : Startup, 2 ≤ argv.length → s.display = true → s.xi_major = some xi_major →
      s.calloc = true →
      (main argv s (hierarchy_event xi_major (info :: rest) :: evs) w).2 = none) ∧
    (∀ (w' : World) (info' : XIHierarchyInfo) (pid : Nat),
      (w'.oracle 0).fork = some pid → (w'.oracle 0).command = none →
      (run_command (argv.drop 1) info' w').trace =
        w'.trace ++
          [.XIQueryDevice (w'.oracle 0).devices, .fork pid,
           .execvp (argv.drop 1).head? (argv.drop 1)
             (child_environ w'.environ info' (w'.oracle 0).devices
               (snprintf 32 (toString info'.deviceid))),
           .perror "exec", .child_exit 1, .waitpid pid (wait_status (.exited 1)),
           .fprintf_stderr "Child failed\n", .XIFreeDeviceInfo (w'.oracle 0).devices]) := by
  have hrun : run_command (argv.drop 1) info w =
      { environ := w.environ, oracle := fun n => w.oracle (n + 1),
        trace := w.trace ++ [.XIQueryDevice (w.oracle 0).devices, .perror "fork"] } := by
    rw [run_command_eq, run_command_events_fork_failed _ _ _ _ hfork]
  refine ⟨by rw [hrun], ?_,
    fun s h1 h2 h3 h4 => main_keeps_running argv s xi_major _ w h1 h2 h3 h4, ?_⟩
  · obtain ⟨t, o', h⟩ := main_loop_frame xi_major argv (hierarchy_event xi_major rest :: evs)
      w.environ (fun n => w.oracle (n + 1))
    refine ⟨t, ?_, ?_⟩
    · rw [main_loop_next_record xi_major argv info rest evs w hflags, hrun, h]
    · rw [h]
  · intro w' info' pid hf hc
    rw [run_command_eq, run_command_events_exec_failed _ _ _ _ pid hf hc]
    rfl

/-- C9, at a concrete input: `fork` fails for the first record; the second
record of the payload is dispatched (its `execvp` fails, the child exits with
code 1 and "Child failed" is written), and so is the record of the next
event. -/
theorem fork_failure_is_survived_witness :
    example_record.flags ≠ 0 ∧
    ((World.start [] [⟨[], none, none⟩, ⟨[], some 101, none⟩,
      ⟨[], some 102, some (.exited 0)⟩]).oracle 0).fork = none ∧
    (run_command (["xi2watch", "env"].drop 1) example_record
        (World.start [] [⟨[], none, none⟩, ⟨[], some 101, none⟩,
          ⟨[], some 102, some (.exited 0)⟩])).trace =
      (World.start [] [⟨[], none, none⟩, ⟨[], some 101, none⟩,
          ⟨[], some 102, some (.exited 0)⟩]).trace ++
        [.XIQueryDevice ((World.start [] [⟨[], none, none⟩, ⟨[], some 101, none⟩,
          ⟨[], some 102, some (.exited 0)⟩]).oracle 0).devices, .perror "fork"] ∧
    (main_loop 131 ["xi2watch", "env"]
        [hierarchy_event 131 [example_record, ⟨16, 3, 4, 1, 64⟩],
         hierarchy_event 131 [⟨17, 2, 3, 1, 4⟩]]
        (World.start [] [⟨[], none, none⟩, ⟨[], some 101, none⟩,
          ⟨[], some 102, some (.exited 0)⟩])).trace =
      [.XIQueryDevice [], .perror "fork",
       .XIQueryDevice [], .fork 101,
       .execvp (some "env") ["env"]
         [("DEVICE", "16"), ("ENABLED", "1"), ("FLAG_MASTER_ADDED", "0"),
          ("FLAG_MASTER_REMOVED", "0"), ("FLAG_SLAVE_ADDED", "0"), ("FLAG_SLAVE_REMOVED", "0"),
          ("FLAG_SLAVE_ATTACHED", "0"), ("FLAG_SLAVE_DETACHED", "0"),
          ("FLAG_DEVICE_ENABLED", "1"), ("FLAG_DEVICE_DISABLED", "0"),
          ("USE", "slave_keyboard")],
       .perror "exec", .child_exit 1, .waitpid 101 256, .fprintf_stderr "Child failed\n",
       .XIFreeDeviceInfo [],
       .XIQueryDevice [], .fork 102,
       .execvp (some "env") ["env"]
         [("DEVICE", "17"), ("ENABLED", "1"), ("FLAG_MASTER_ADDED", "0"),
          ("FLAG_MASTER_REMOVED", "0"), ("FLAG_SLAVE_ADDED", "1"), ("FLAG_SLAVE_REMOVED", "0"),
          ("FLAG_SLAVE_ATTACHED", "0"), ("FLAG_SLAVE_DETACHED", "0"),
          ("FLAG_DEVICE_ENABLED", "0"), ("FLAG_DEVICE_DISABLED", "0"),
          ("USE", "slave_pointer")],
       .command_ended (.exited 0), .waitpid 102 0, .XIFreeDeviceInfo []] :=
  ⟨by decide, rfl,
    (fork_failure_is_survived 131 ["xi2watch", "env"] example_record [⟨16, 3, 4, 1, 64⟩]
      [hierarchy_event 131 [⟨17, 2, 3, 1, 4⟩]]
      (World.start [] [⟨[], none, none⟩, ⟨[], some 101, none⟩,
        ⟨[], some 102, some (.exited 0)⟩])
      (by decide) rfl).1,
    by decide⟩

/-! ## The device directory snapshot -/

/-- C10 fails on the code when `fork` fails. For the example record, with
device 15 in the directory and `fork` failing, `run_command` queries the
directory, writes the diagnostic and returns without calling
`XIFreeDeviceInfo`: one snapshot is still live when it returns. -/
theorem snapshot_live_after_fork_failure :
    (run_command ["env"] example_record
        (World.start [] [⟨example_directory, none, none⟩])).trace =
      [.XIQueryDevice example_directory, .perror "fork"] ∧
    snapshots_live (run_command ["env"] example_record
        (World.start [] [⟨example_directory, none, none⟩])).trace = 1 := by
  refine ⟨by decide, by decide⟩

end Xi2watch
